import Mathlib

/-!
Verification development for the join-compatibility validation engine of the
stepfnAI join_agent repository.  The definitions below are a shallow embedding
of the Python source files src/validators/join_field_validator.py and
src/agents/join_suggestions_agent.py: dataframes become association lists of
named columns, cells become optional values (missing markers are `none`),
machine floats become exact rationals, and code that can raise returns
`Except`.  Each claim of the specification is then settled by a theorem about
these definitions.
-/

deriving instance DecidableEq for Except

/-- A cell value of a dataframe column: pandas object cells in the source are
either numbers or strings for every input the engine handles. -/
inductive Value
  | int (n : Int)
  | str (s : String)
deriving DecidableEq, Repr

/-- A missing cell (NaN / None in pandas) is `none`. -/
abbrev Cell := Option Value

/-- The stored dtype of a column, as inspected by `_normalize_date_column`
(`df[column_name].dtype in [..int64.., ..float64..]`); every non-numeric
column is object-typed here. -/
inductive Dtype
  | int64
  | float64
  | object
deriving DecidableEq, Repr

/-- One named column of a dataframe: its dtype and its cells in row order. -/
structure Column where
  dtype : Dtype
  cells : List Cell
deriving DecidableEq, Repr

/-- A dataframe: an ordered association list of named columns.  All columns of
one dataframe are assumed rectangular (same length). -/
structure DataFrame where
  cols : List (String × Column)
deriving DecidableEq, Repr

/-- Column lookup, `df[name]`; `none` models the KeyError raised by pandas
when the column is absent. -/
def DataFrame.getCol (df : DataFrame) (name : String) : Option Column :=
  (df.cols.find? (fun p => p.1 == name)).map Prod.snd

/-- Row count `len(df)` (0 for a dataframe with no columns). -/
def DataFrame.nrows (df : DataFrame) : Nat :=
  match df.cols with
  | [] => 0
  | c :: _ => c.2.cells.length

/-- Column assignment `df[name] = col`: replace in place when the name exists,
append otherwise. -/
def DataFrame.setCol (df : DataFrame) (name : String) (c : Column) : DataFrame :=
  if df.cols.any (fun p => p.1 == name) then
    ⟨df.cols.map (fun p => if p.1 == name then (name, c) else p)⟩
  else
    ⟨df.cols ++ [(name, c)]⟩

/-- The distinct non-missing values of a column:
`set(df[col].dropna().unique())`. -/
def Column.distinctVals (c : Column) : Finset Value :=
  (c.cells.filterMap id).toFinset

/-- A calendar date (year, month, day). -/
structure YMD where
  y : Nat
  m : Nat
  d : Nat
deriving DecidableEq, Repr

/-- Smart constructor validating month and day ranges. -/
def mkYMD (y m d : Nat) : Option YMD :=
  if 1 ≤ m ∧ m ≤ 12 ∧ 1 ≤ d ∧ d ≤ 31 then some ⟨y, m, d⟩ else none

/-- Split a character list at every occurrence of the separator (the list
analogue of string splitting, written with structural recursion so that it
evaluates inside the kernel). -/
def splitCharList (sep : Char) : List Char → List (List Char)
  | [] => [[]]
  | c :: rest =>
    match splitCharList sep rest with
    | [] => [[c]]
    | h :: t => if c = sep then [] :: h :: t else (c :: h) :: t

/-- Read a non-empty all-digit character list as a natural number. -/
def digitsToNat? (l : List Char) : Option Nat :=
  if l ≠ [] ∧ l.all Char.isDigit then
    some (l.foldl (fun a c => 10 * a + (c.toNat - 48)) 0)
  else none

/-- Modelled from the spec: the permissive date parse performed by
`pd.to_datetime` (an external library call), restricted to the textual
formats the engine is exercised with in this development: ISO strings
`YYYY-MM-DD` and `YYYY-MM`, and US-style `M/D/YY` or `M/D/YYYY` strings
(a two-digit year below 70 is read as 20YY, otherwise as 19YY).  Every
other string fails to parse (`NaT` under `errors=..coerce..`). -/
def parseDate (s : String) : Option YMD :=
  let cs := s.toList
  match splitCharList (Char.ofNat 45) cs with
  | [ys, ms, ds] => do
      let y ← digitsToNat? ys
      let m ← digitsToNat? ms
      let d ← digitsToNat? ds
      if ys.length = 4 then mkYMD y m d else none
  | [ys, ms] => do
      let y ← digitsToNat? ys
      let m ← digitsToNat? ms
      if ys.length = 4 then mkYMD y m 1 else none
  | _ =>
    match splitCharList (Char.ofNat 47) cs with
    | [ms, ds, ys] => do
        let m ← digitsToNat? ms
        let d ← digitsToNat? ds
        let y ← digitsToNat? ys
        let y2 := if ys.length = 2 then (if y < 70 then 2000 + y else 1900 + y) else y
        mkYMD y2 m d
    | _ => none

/-- Date parse of one cell value.  Numeric cells are not treated as dates:
whole numeric columns are structurally fast-rejected by the normalizer before
any content parse. -/
def parseCell : Value → Option YMD
  | .str s => parseDate s
  | .int _ => none

/-- Zero-padding to two digits (strftime month field). -/
def pad2 (n : Nat) : String :=
  if n < 10 then "0" ++ toString n else toString n

/-- Zero-padding to four digits (strftime year field). -/
def pad4 (n : Nat) : String :=
  if n < 10 then "000" ++ toString n
  else if n < 100 then "00" ++ toString n
  else if n < 1000 then "0" ++ toString n
  else toString n

/-- Canonical year-month rendering, `dates.dt.strftime` with a year-month
format. -/
def formatYM (d : YMD) : String :=
  pad4 d.y ++ "-" ++ pad2 d.m

/-- The error raised (as a ValueError) by `_normalize_date_column`, modelled
as structured data so that the sample offending values carried by the
content-rejection message stay visible. -/
inductive NormError
  | missingColumn (column : String)
  | structural (column : String)
  | badRate (column : String) (samples : List Value)
deriving DecidableEq, Repr

/-- First five non-missing values, `df[column_name].dropna().head(5)`, used as
the sample list attached to content-rejection errors. -/
def sampleNonNull (c : Column) : List Value :=
  (c.cells.filterMap id).take 5

/-- The structural name-based fast reject:
`column_name.lower().endswith((.._id.., .._seats.., .._qty.., .._amount..))`. -/
def hasNumericSuffix (name : String) : Bool :=
  let l := name.toList.map Char.toLower
  ("_id".toList.isSuffixOf l) || ("_seats".toList.isSuffixOf l) ||
    ("_qty".toList.isSuffixOf l) || ("_amount".toList.isSuffixOf l)

/-- Embedding of `_normalize_date_column` (join_suggestions_agent.py, lines
96-130).  Rejects numeric dtypes and numeric-suffix names structurally; then
parses every cell, counts `dates.isna().sum()` - which includes the cells that
were missing before the parse - divides by the non-null count (rate 1.0 when
that count is zero), and rejects when the rate strictly exceeds 20 percent
(`5 * failed > nonNull` in exact arithmetic).  On success each parsed date is
rendered as a canonical year-month string; missing markers stay missing. -/
def normalizeDateColumn (df : DataFrame) (column : String) : Except NormError (List (Option String)) :=
  match df.getCol column with
  | none => .error (.missingColumn column)
  | some c =>
    if c.dtype = .int64 ∨ c.dtype = .float64 ∨ hasNumericSuffix column then
      .error (.structural column)
    else
      let parsed : List (Option YMD) := c.cells.map (fun cell => cell.bind parseCell)
      let nonNull := (c.cells.filterMap id).length
      let failed := (parsed.filter Option.isNone).length
      if nonNull = 0 ∨ 5 * failed > nonNull then
        .error (.badRate column (sampleNonNull c))
      else
        .ok (parsed.map (Option.map formatYM))

/-- Round-half-to-even on a rational, the idealization of the rounding
performed by the Python builtin `round` (exact rationals stand in for the
machine floats of the source). -/
def roundHalfEven (q : ℚ) : ℤ :=
  if q - ⌊q⌋ < 1 / 2 then ⌊q⌋
  else if 1 / 2 < q - ⌊q⌋ then ⌊q⌋ + 1
  else if ⌊q⌋ % 2 = 0 then ⌊q⌋ else ⌊q⌋ + 1

/-- Rounding to two decimal places, `round(x, 2)`. -/
def round2 (q : ℚ) : ℚ :=
  (roundHalfEven (q * 100) : ℚ) / 100

/-- Rendering with one decimal place, the format applied to the
multiplication factor inside the duplicate warning text. -/
def fmt1 (q : ℚ) : String :=
  let n := roundHalfEven (q * 10)
  toString (n / 10) ++ "." ++ toString (n % 10)

/-- The human-readable fan-out warning synthesized by `check_join_health`
(thousands-separator grouping of the excess row count is omitted from the
model; the text is otherwise the same). -/
def duplicateWarning (matching maxExpected : Nat) (mf : ℚ) : String :=
  "Join produces " ++ toString ((matching : Int) - (maxExpected : Int)) ++
    " additional records due to " ++ fmt1 mf ++
    "x multiplication factor. This suggests a one-to-many or many-to-many relationship between the tables."

/-- The cells of each named merge column, `df[names]`; `none` when some merge
column is absent (the KeyError of the pandas merge). -/
def colCells (df : DataFrame) (names : List String) : Option (List (List Cell)) :=
  names.mapM (fun n => (df.getCol n).map Column.cells)

/-- Row-major key tuples of the merge columns: row `i` pairs the `i`-th cell
of every merge column. -/
def rowTuples (n : Nat) (cs : List (List Cell)) : List (List Cell) :=
  (List.range n).map (fun i => cs.map (fun col => col.getD i none))

/-- The row count of a pandas inner merge on the given key columns: the number
of pairs of rows whose full key tuples agree.  Missing keys match missing
keys, as pandas merge treats NaN as an ordinary key value.  `none` models the
KeyError raised when a merge column is absent. -/
def mergeCount (t1 t2 : DataFrame) (leftOn rightOn : List String) : Option Nat := do
  let cs1 ← colCells t1 leftOn
  let cs2 ← colCells t2 rightOn
  let keys1 := rowTuples t1.nrows cs1
  let keys2 := rowTuples t2.nrows cs2
  pure (keys1.foldl (fun acc k => acc + keys2.countP (fun k2 => decide (k2 = k))) 0)

/-- One column-name pair of a selected join mapping
(`mapping[..table1_field..]`, `mapping[..table2_field..]`). -/
structure FieldPair where
  table1_field : String
  table2_field : String
deriving DecidableEq, Repr

/-- The manually selected join passed to `check_join_health`: the hosting app
always supplies a customer mapping and a date mapping, and optionally a
product mapping. -/
structure SelectedJoin where
  customer_mapping : FieldPair
  date_mapping : FieldPair
  product_mapping : Option FieldPair
deriving DecidableEq, Repr

/-- The `combined_overlap` entry built by `check_join_health`.  The initial
dictionary carries only zeroed metrics; `has_duplicates` and
`duplicate_warning` are added by the update that runs after a successful
merge, hence their `Option` type (`none` means the key is absent). -/
structure CombinedOverlap where
  total_records_table1 : Nat
  total_records_table2 : Nat
  matching_records : Nat
  overlap_percentage : ℚ
  multiplication_factor : ℚ
  has_duplicates : Option Bool
  duplicate_warning : Option String
deriving DecidableEq, Repr

/-- The zeroed `combined_overlap` dictionary installed before the merge is
attempted (join_suggestions_agent.py lines 373-379). -/
def initialCombined (t1 t2 : DataFrame) : CombinedOverlap :=
  ⟨t1.nrows, t2.nrows, 0, 0, 0, none, none⟩

/-- The successful update of the `combined_overlap` entry (lines 409-424):
overlap percentage against the smaller table capped at 100, multiplication
factor against the larger table rounded to two decimals, and the fan-out flag
and warning driven by the unrounded factor. -/
def mkCombinedSuccess (n1 n2 m : Nat) : CombinedOverlap :=
  { total_records_table1 := n1
    total_records_table2 := n2
    matching_records := m
    overlap_percentage := min 100 ((m : ℚ) / ((min n1 n2 : Nat) : ℚ) * 100)
    multiplication_factor := round2 ((m : ℚ) / ((max n1 n2 : Nat) : ℚ))
    has_duplicates := some (decide ((m : ℚ) / ((max n1 n2 : Nat) : ℚ) > 1))
    duplicate_warning :=
      some (if (m : ℚ) / ((max n1 n2 : Nat) : ℚ) > 1 then
        duplicateWarning m (max n1 n2) ((m : ℚ) / ((max n1 n2 : Nat) : ℚ))
      else "") }

/-- Turn the output of a successful date normalization into a column that can
be assigned back into a dataframe copy. -/
def normStrCol (vals : List (Option String)) : Column :=
  ⟨.object, vals.map (Option.map Value.str)⟩

/-- The body of the `try` block of the combined-overlap section of
`check_join_health` (lines 381-424): normalize both date columns, assign them
as `normalized_date`, merge on customer plus normalized date plus the optional
product pair, and build the updated metrics.  Every failure mode of the block
(date normalization error, missing merge column, division by zero on an empty
table) surfaces as an `Except.error`. -/
def checkJoinHealthCombinedTry (t1 t2 : DataFrame) (j : SelectedJoin) :
    Except String CombinedOverlap :=
  match normalizeDateColumn t1 j.date_mapping.table1_field with
  | .error _ => .error "date normalization failed"
  | .ok nd1 =>
    match normalizeDateColumn t2 j.date_mapping.table2_field with
    | .error _ => .error "date normalization failed"
    | .ok nd2 =>
      match mergeCount (t1.setCol "normalized_date" (normStrCol nd1))
          (t2.setCol "normalized_date" (normStrCol nd2))
          ([j.customer_mapping.table1_field, "normalized_date"] ++
            (j.product_mapping.elim [] (fun p => [p.table1_field])))
          ([j.customer_mapping.table2_field, "normalized_date"] ++
            (j.product_mapping.elim [] (fun p => [p.table2_field]))) with
      | none => .error "KeyError"
      | some m =>
        if max t1.nrows t2.nrows = 0 then .error "ZeroDivisionError"
        else if min t1.nrows t2.nrows = 0 then .error "ZeroDivisionError"
        else .ok (mkCombinedSuccess t1.nrows t2.nrows m)

/-- The `combined_overlap` entry `check_join_health` finally reports: the
updated metrics when the `try` block succeeds, and the untouched zeroed
initial dictionary when any exception is swallowed (lines 426-427 only print
the error). -/
def checkJoinHealthCombined (t1 t2 : DataFrame) (j : SelectedJoin) : CombinedOverlap :=
  match checkJoinHealthCombinedTry t1 t2 j with
  | .ok r => r
  | .error _ => initialCombined t1 t2

/-- The per-field entry `check_join_health` builds for a non-date mapping
(lines 351-365): distinct-value overlap divided by the size of the union of
both value sets, capped at 100.  The `mapping_type` tag of the source
dictionary carries no information and is omitted.  A missing column or an
empty union raises out of `check_join_health` (there is no try around this
branch), modelled by the error cases. -/
structure FieldHealthEntry where
  overlap_percentage : ℚ
  unique_values_table1 : Nat
  unique_values_table2 : Nat
  overlapping_values : Nat
  total_unique_values : Nat
deriving DecidableEq, Repr

/-- Embedding of the non-date per-field branch of `check_join_health`. -/
def checkJoinHealthFieldEntry (t1 t2 : DataFrame) (f1 f2 : String) :
    Except String FieldHealthEntry :=
  match t1.getCol f1, t2.getCol f2 with
  | some c1, some c2 =>
    if (c1.distinctVals ∪ c2.distinctVals).card = 0 then .error "ZeroDivisionError"
    else .ok ⟨min 100 (((c1.distinctVals ∩ c2.distinctVals).card : ℚ) /
        (((c1.distinctVals ∪ c2.distinctVals).card : Nat) : ℚ) * 100),
      c1.distinctVals.card, c2.distinctVals.card,
      (c1.distinctVals ∩ c2.distinctVals).card, (c1.distinctVals ∪ c2.distinctVals).card⟩
  | _, _ => .error "KeyError"

/-- The metrics dictionary of the Field Validator value-overlap check. -/
structure OverlapMetrics where
  overlap_percentage : ℚ
  unique_to_table1 : Nat
  unique_to_table2 : Nat
deriving DecidableEq, Repr

/-- Embedding of `JoinFieldValidator.value_overlap_check`
(join_field_validator.py lines 98-112): distinct-value overlap divided by the
larger set size.  A missing column raises a KeyError and two empty value sets
raise a ZeroDivisionError, surfaced here as `Except.error`. -/
def valueOverlapCheck (t1 t2 : DataFrame) (f1 f2 : String) :
    Except String OverlapMetrics :=
  match t1.getCol f1, t2.getCol f2 with
  | some c1, some c2 =>
    if max c1.distinctVals.card c2.distinctVals.card = 0 then .error "ZeroDivisionError"
    else .ok ⟨((c1.distinctVals ∩ c2.distinctVals).card : ℚ) /
        ((max c1.distinctVals.card c2.distinctVals.card : Nat) : ℚ) * 100,
      (c1.distinctVals \ (c1.distinctVals ∩ c2.distinctVals)).card,
      (c2.distinctVals \ (c1.distinctVals ∩ c2.distinctVals)).card⟩
  | _, _ => .error "KeyError"

/-- One suggestion of the external suggestion source, as read by
`_verify_value_overlap`: a role key is treated as present when the suggestion
carries it with truthy column names on both sides (the guard
`prompt_key in suggestion and suggestion[prompt_key].get(..table1..) and
suggestion[prompt_key].get(..table2..)`). -/
structure Suggestion where
  dateField : Option FieldPair
  custIDField : Option FieldPair
  prodID : Option FieldPair
deriving DecidableEq, Repr

/-- The emptiness test `if suggestion:` on the suggestion dictionary,
modelled as no role being present. -/
def Suggestion.isEmpty (s : Suggestion) : Bool :=
  s.dateField.isNone && s.custIDField.isNone && s.prodID.isNone

/-- One entry of the verification-results dictionary built by
`_verify_value_overlap`: a per-field overlap success, the error dictionary
written over the date-pair key when date normalization fails, a combined
overlap success, or the error dictionary written under a combined-overlap
key.  The combined success entry carries exactly the four keys the source
writes: both totals, the matching-record count, and the (uncapped) overlap
percentage. -/
inductive VEntry
  | fieldOverlap (overlap_percentage : ℚ)
      (total_values_table1 total_values_table2 overlapping_values : Nat)
  | fieldError (msg : String)
  | combined (total_records_table1 total_records_table2 matching_records : Nat)
      (overlap_percentage : ℚ)
  | combinedError (msg : String)
deriving DecidableEq, Repr

/-- Dictionary assignment `verification_results[k] = v`: overwrite in place
when the key exists, append otherwise. -/
def insertEntry (l : List (String × VEntry)) (k : String) (v : VEntry) :
    List (String × VEntry) :=
  if l.any (fun p => p.1 == k) then
    l.map (fun p => if p.1 == k then (k, v) else p)
  else l ++ [(k, v)]

/-- The distinct month-level periods of a date column under the strict parse
of the per-field date branch (`pd.to_datetime(df[f])` with default
`errors=..raise..` followed by `.dt.to_period(..M..)`): `none` when any
non-missing cell fails to parse (the raised exception), otherwise the set of
(year, month) pairs of the non-missing cells. -/
def cellMonth : Cell → Option (Option (Nat × Nat))
  | none => some none
  | some v => (parseCell v).map (fun d => some (d.y, d.m))

/-- The set of distinct month periods of a column, `none` when the strict
parse raises. -/
def monthSet (c : Column) : Option (Finset (Nat × Nat)) :=
  (c.cells.mapM cellMonth).map (fun parsed => (parsed.filterMap id).toFinset)

/-- The per-field overlap entry over two distinct-value sets:
`len(overlap) / max(len(values1), len(values2)) * 100` with the companion
counts (join_suggestions_agent.py lines 170-177). -/
def mkFieldOverlapEntry {α : Type} [DecidableEq α] (v1 v2 : Finset α) : VEntry :=
  .fieldOverlap (((v1 ∩ v2).card : ℚ) / ((max v1.card v2.card : Nat) : ℚ) * 100)
    v1.card v2.card (v1 ∩ v2).card

/-- One iteration of the per-field loop of `_verify_value_overlap` (lines
146-177) for a present field pair: skip when a column is missing, skip when
the strict date parse raises, and otherwise insert the overlap entry under
the `field1_field2` key.  Two empty value sets make the division raise out of
the whole function (there is no try around it), modelled by the error case. -/
def verifyFieldStep (df1 df2 : DataFrame) (isDate : Bool) (fp : FieldPair)
    (acc : List (String × VEntry)) : Except String (List (String × VEntry)) :=
  match df1.getCol fp.table1_field, df2.getCol fp.table2_field with
  | some c1, some c2 =>
    match isDate with
    | true =>
      match monthSet c1, monthSet c2 with
      | some v1, some v2 =>
        if max v1.card v2.card = 0 then .error "ZeroDivisionError"
        else .ok (insertEntry acc (fp.table1_field ++ "_" ++ fp.table2_field)
          (mkFieldOverlapEntry v1 v2))
      | _, _ => .ok acc
    | false =>
      if max c1.distinctVals.card c2.distinctVals.card = 0 then .error "ZeroDivisionError"
      else .ok (insertEntry acc (fp.table1_field ++ "_" ++ fp.table2_field)
        (mkFieldOverlapEntry c1.distinctVals c2.distinctVals))
  | _, _ => .ok acc

/-- The per-field loop step for an optional role. -/
def stepField (df1 df2 : DataFrame) (isDate : Bool) (o : Option FieldPair)
    (acc : List (String × VEntry)) : Except String (List (String × VEntry)) :=
  match o with
  | some fp => verifyFieldStep df1 df2 isDate fp acc
  | none => .ok acc

/-- The message of the ValueError re-raised by `_normalize_date_column`, as
recorded by the combined-check error dictionary. -/
def normErrMsg : NormError → String
  | .missingColumn c => "Failed to normalize dates: column " ++ c ++ " not found"
  | .structural c =>
      "Failed to normalize dates: Column " ++ c ++ " appears to be numeric or non-date."
  | .badRate c _ =>
      "Failed to normalize dates: Column " ++ c ++ " does not appear to contain valid dates."

/-- The merge key columns of a suggestion, in the order the source appends
them: customer, then date, then product (lines 200-217). -/
def suggestionMergeOn (s : Suggestion) : List String × List String :=
  ((s.custIDField.elim [] (fun p => [p.table1_field])) ++
     (s.dateField.elim [] (fun p => [p.table1_field])) ++
     (s.prodID.elim [] (fun p => [p.table1_field])),
   (s.custIDField.elim [] (fun p => [p.table2_field])) ++
     (s.dateField.elim [] (fun p => [p.table2_field])) ++
     (s.prodID.elim [] (fun p => [p.table2_field])))

/-- The merge attempt of the combined check (lines 226-245): every exception
inside the try block - a missing merge column, an empty merge-key list, the
division by the smaller row count when it is zero - is caught and recorded as
an error dictionary under the `combined_overlap_<key>` entry; on success the
entry carries both totals, the matching count, and the uncapped percentage
against the smaller table. -/
def verifyMerge (t1m t2m df1 df2 : DataFrame) (s : Suggestion) (skey : String)
    (acc : List (String × VEntry)) : List (String × VEntry) :=
  if (suggestionMergeOn s).1.isEmpty then
    insertEntry acc ("combined_overlap_" ++ skey) (.combinedError "merge error")
  else
    match mergeCount t1m t2m (suggestionMergeOn s).1 (suggestionMergeOn s).2 with
    | none => insertEntry acc ("combined_overlap_" ++ skey) (.combinedError "KeyError")
    | some m =>
      if min df1.nrows df2.nrows = 0 then
        insertEntry acc ("combined_overlap_" ++ skey) (.combinedError "ZeroDivisionError")
      else
        insertEntry acc ("combined_overlap_" ++ skey)
          (.combined df1.nrows df2.nrows m
            ((m : ℚ) / ((min df1.nrows df2.nrows : Nat) : ℚ) * 100))

/-- The combined-overlap section of `_verify_value_overlap` for one suggestion
(lines 180-245): skipped when the suggestion is empty; when a date role is
present both date columns are normalized in place first, and a normalization
failure writes an error dictionary over the `date1_date2` key and moves on to
the next suggestion without any combined entry. -/
def verifyCombinedStep (df1 df2 : DataFrame) (s : Suggestion) (skey : String)
    (acc : List (String × VEntry)) : List (String × VEntry) :=
  if s.isEmpty then acc
  else
    match s.dateField with
    | none => verifyMerge df1 df2 df1 df2 s skey acc
    | some dfp =>
      match normalizeDateColumn df1 dfp.table1_field with
      | .error e =>
        insertEntry acc (dfp.table1_field ++ "_" ++ dfp.table2_field)
          (.fieldError (normErrMsg e))
      | .ok nd1 =>
        match normalizeDateColumn df2 dfp.table2_field with
        | .error e =>
          insertEntry acc (dfp.table1_field ++ "_" ++ dfp.table2_field)
            (.fieldError (normErrMsg e))
        | .ok nd2 =>
          verifyMerge (df1.setCol dfp.table1_field (normStrCol nd1))
            (df2.setCol dfp.table2_field (normStrCol nd2)) df1 df2 s skey acc

/-- Processing of a single suggestion by `_verify_value_overlap`: the three
per-field checks in the dictionary order of the source (date, customer,
product), then the combined check. -/
def verifySuggestion (df1 df2 : DataFrame) (skey : String) (s : Suggestion)
    (acc : List (String × VEntry)) : Except String (List (String × VEntry)) :=
  match stepField df1 df2 true s.dateField acc with
  | .error e => .error e
  | .ok a1 =>
    match stepField df1 df2 false s.custIDField a1 with
    | .error e => .error e
    | .ok a2 =>
      match stepField df1 df2 false s.prodID a2 with
      | .error e => .error e
      | .ok a3 => .ok (verifyCombinedStep df1 df2 s skey a3)

/-- The suggestion loop of `_verify_value_overlap`, threading the
verification-results dictionary through each suggestion in order. -/
def verifyValueOverlapAux (df1 df2 : DataFrame) :
    List (String × Suggestion) → List (String × VEntry) →
    Except String (List (String × VEntry))
  | [], acc => .ok acc
  | p :: rest, acc =>
    match verifySuggestion df1 df2 p.1 p.2 acc with
    | .error e => .error e
    | .ok next => verifyValueOverlapAux df1 df2 rest next

/-- Embedding of `_verify_value_overlap` (join_suggestions_agent.py lines
132-248) over the ordered list of suggestions. -/
def verifyValueOverlap (suggestions : List (String × Suggestion)) (df1 df2 : DataFrame) :
    Except String (List (String × VEntry)) :=
  verifyValueOverlapAux df1 df2 suggestions []

/-- The health metrics of one field pair. -/
structure HealthMetrics where
  uniqueness_score : ℚ
  overlap_score : ℚ
  null_impact : ℚ
  overall_health : ℚ
deriving DecidableEq, Repr

/-- Modelled from the spec: the Health Aggregator of section 4.4 is not
present under src/ (only the validator and overlap engine are); its scoring
rule is taken verbatim from the specification: uniqueness is 100 minus the
average duplication rate of the two sides, overlap is the value-overlap
percentage, null impact is the average null percentage, and the overall
health blends them with weights 0.4, 0.4 and 0.2. -/
def healthScore (dup1 dup2 overlapPct null1 null2 : ℚ) : HealthMetrics :=
  let u := 100 - (dup1 + dup2) / 2
  let o := overlapPct
  let n := (null1 + null2) / 2
  ⟨u, o, n, (4 / 10) * u + (4 / 10) * o + (2 / 10) * (100 - n)⟩

/-- A one-row pair of joinable tables used to instantiate the universally
quantified theorems at a concrete input. -/
def tinyT1 : DataFrame :=
  ⟨[("cu", ⟨.int64, [some (.int 1)]⟩), ("dt", ⟨.object, [some (.str "2023-01-15")]⟩)]⟩

/-- Companion table of `tinyT1`. -/
def tinyT2 : DataFrame :=
  ⟨[("cu2", ⟨.int64, [some (.int 1)]⟩), ("dt2", ⟨.object, [some (.str "2023-01-15")]⟩)]⟩

/-- The selected join over the tiny tables. -/
def tinyJoin : SelectedJoin := ⟨⟨"cu", "cu2"⟩, ⟨"dt", "dt2"⟩, none⟩

/-- A duplicated-key table: the customer value 1 appears on both rows. -/
def c1T1 : DataFrame := ⟨[("c", ⟨.int64, [some (.int 1), some (.int 1)]⟩)]⟩

/-- A table whose three rows all carry the customer value 1, so an inner join
with `c1T1` fans out to six rows. -/
def c1T2 : DataFrame :=
  ⟨[("d", ⟨.int64, [some (.int 1), some (.int 1), some (.int 1)]⟩)]⟩

/-- A single customer-only suggestion over `c1T1` and `c1T2`. -/
def c1Sugg : List (String × Suggestion) := [("suggestion1", ⟨none, some ⟨"c", "d"⟩, none⟩)]

/-- Left table of the rounding counterexample: 200 rows, customer key 0 once
and key 1 on the other 199 rows, all rows in the same month. -/
def c5T1 : DataFrame :=
  ⟨[("cu", ⟨.int64, some (.int 0) :: List.replicate 199 (some (.int 1))⟩),
    ("dt", ⟨.object, List.replicate 200 (some (.str "2023-01-15"))⟩)]⟩

/-- Right table of the rounding counterexample: 3 rows, customer key 0 twice
and key 1 once, so the inner join with `c5T1` matches 2 + 199 = 201 row
pairs while the larger table has 200 rows. -/
def c5T2 : DataFrame :=
  ⟨[("cu2", ⟨.int64, [some (.int 0), some (.int 0), some (.int 1)]⟩),
    ("dt2", ⟨.object, List.replicate 3 (some (.str "2023-01-15"))⟩)]⟩

/-- The selected join over the rounding counterexample tables. -/
def c5Join : SelectedJoin := ⟨⟨"cu", "cu2"⟩, ⟨"dt", "dt2"⟩, none⟩

/-- Tables whose date column is numeric, so date normalization fails
structurally. -/
def c2T1 : DataFrame :=
  ⟨[("cu", ⟨.int64, [some (.int 1)]⟩), ("d", ⟨.int64, [some (.int 20230115)]⟩)]⟩

/-- Companion table of `c2T1` with a parseable date column. -/
def c2T2 : DataFrame :=
  ⟨[("cu2", ⟨.int64, [some (.int 1)]⟩), ("d2", ⟨.object, [some (.str "2023-01-15")]⟩)]⟩

/-- The selected join over `c2T1` and `c2T2`. -/
def c2Join : SelectedJoin := ⟨⟨"cu", "cu2"⟩, ⟨"d", "d2"⟩, none⟩

/-- A named column with zero rows. -/
def c4T1 : DataFrame := ⟨[("a", ⟨.object, []⟩)]⟩

/-- A second named column with zero rows. -/
def c4T2 : DataFrame := ⟨[("b", ⟨.object, []⟩)]⟩

/-- A one-value column used where a nonempty side is needed. -/
def c4T3 : DataFrame := ⟨[("v", ⟨.int64, [some (.int 7)]⟩)]⟩

/-- Column with distinct values 1 and 2. -/
def c7Col1 : Column := ⟨.int64, [some (.int 1), some (.int 2)]⟩

/-- Column with distinct values 2 and 3. -/
def c7Col2 : Column := ⟨.int64, [some (.int 2), some (.int 3)]⟩

/-- Table holding `c7Col1` under the name `a`. -/
def c7T1 : DataFrame := ⟨[("a", c7Col1)]⟩

/-- Table holding `c7Col2` under the name `b`. -/
def c7T2 : DataFrame := ⟨[("b", c7Col2)]⟩

/-- A date column whose single non-missing value parses, next to one missing
marker. -/
def c8T : DataFrame := ⟨[("date", ⟨.object, [some (.str "2023-01-15"), none]⟩)]⟩

/-- An already-normalized year-month column with one missing marker. -/
def c9T : DataFrame := ⟨[("month", ⟨.object, [some (.str "2023-01"), none]⟩)]⟩

/-- An entirely null column. -/
def c10T : DataFrame := ⟨[("x", ⟨.object, [none, none]⟩)]⟩

/-- The invariant every combined entry of a `_verify_value_overlap` result
satisfies: its totals are the two row counts, the smaller one is positive,
and the percentage is the uncapped ratio of matches to the smaller total. -/
def CombinedInv (n1 n2 : Nat) : VEntry → Prop
  | .combined a b m p => a = n1 ∧ b = n2 ∧ 0 < min n1 n2 ∧
      p = (m : ℚ) / ((min n1 n2 : Nat) : ℚ) * 100
  | _ => True

/-! ### Supporting lemmas -/

theorem roundHalfEven_le {q : ℚ} {n : ℤ} (h : q ≤ (n : ℚ)) : roundHalfEven q ≤ n := by
  have hfl : ⌊q⌋ ≤ n := by
    have := Int.floor_mono h
    simpa using this
  have hq : ((⌊q⌋ : ℤ) : ℚ) ≤ q := Int.floor_le q
  unfold roundHalfEven
  split_ifs with h1 h2 h3
  · exact hfl
  · have hlt : ⌊q⌋ < n := by
      rcases lt_or_eq_of_le hfl with hlt | heq
      · exact hlt
      · exfalso
        have hc : ((⌊q⌋ : ℤ) : ℚ) = ((n : ℤ) : ℚ) := by exact_mod_cast heq
        linarith
    omega
  · exact hfl
  · have h1' : (1 : ℚ) / 2 ≤ q - ⌊q⌋ := not_lt.1 h1
    have hlt : ⌊q⌋ < n := by
      rcases lt_or_eq_of_le hfl with hlt | heq
      · exact hlt
      · exfalso
        have hc : ((⌊q⌋ : ℤ) : ℚ) = ((n : ℤ) : ℚ) := by exact_mod_cast heq
        linarith
    omega

theorem round2_le_one {q : ℚ} (h : q ≤ 1) : round2 q ≤ 1 := by
  have h100 : q * 100 ≤ ((100 : ℤ) : ℚ) := by push_cast; linarith
  have hr := roundHalfEven_le h100
  unfold round2
  rw [div_le_one (by norm_num)]
  exact_mod_cast hr

theorem duplicateWarning_ne (m M : Nat) (q : ℚ) : duplicateWarning m M q ≠ "" := by
  intro h
  have hl := congrArg String.length h
  simp only [duplicateWarning, String.length_append] at hl
  have h1 : ("Join produces ").length = 14 := rfl
  have h2 : ("" : String).length = 0 := rfl
  omega

theorem combinedTry_ok {t1 t2 : DataFrame} {j : SelectedJoin} {r : CombinedOverlap}
    (h : checkJoinHealthCombinedTry t1 t2 j = .ok r) :
    ∃ m, r = mkCombinedSuccess t1.nrows t2.nrows m ∧
      max t1.nrows t2.nrows ≠ 0 ∧ min t1.nrows t2.nrows ≠ 0 := by
  unfold checkJoinHealthCombinedTry at h
  split at h
  · exact absurd h (by simp)
  · split at h
    · exact absurd h (by simp)
    · split at h
      · exact absurd h (by simp)
      · split at h
        · exact absurd h (by simp)
        · split at h
          · exact absurd h (by simp)
          · exact ⟨_, (Except.ok.inj h).symm, by assumption, by assumption⟩

theorem inter_card_eq_max_iff {α : Type} [DecidableEq α] {s t : Finset α} :
    (s ∩ t).card = max s.card t.card ↔ s = t := by
  constructor
  · intro h
    have hs : s.card ≤ (s ∩ t).card := by
      rw [h]; exact le_max_left _ _
    have ht : t.card ≤ (s ∩ t).card := by
      rw [h]; exact le_max_right _ _
    have e1 : s ∩ t = s := Finset.eq_of_subset_of_card_le Finset.inter_subset_left hs
    have e2 : s ∩ t = t := Finset.eq_of_subset_of_card_le Finset.inter_subset_right ht
    rw [← e1, e2]
  · rintro rfl
    simp

theorem mem_insertEntry {acc : List (String × VEntry)} {k : String} {v : VEntry}
    {p : String × VEntry} (hp : p ∈ insertEntry acc k v) : p.2 = v ∨ p ∈ acc := by
  unfold insertEntry at hp
  split at hp
  · rcases List.mem_map.1 hp with ⟨q, hq, he⟩
    by_cases hqk : (q.1 == k) = true
    · rw [if_pos hqk] at he
      left
      rw [← he]
    · rw [if_neg hqk] at he
      right
      rwa [he] at hq
  · rcases List.mem_append.1 hp with h | h
    · right; exact h
    · left
      have hpv : p = (k, v) := by simpa using h
      rw [hpv]

theorem verifyFieldStep_inv {df1 df2 : DataFrame} {b : Bool} {fp : FieldPair}
    {acc acc' : List (String × VEntry)} {n1 n2 : Nat}
    (h : verifyFieldStep df1 df2 b fp acc = .ok acc')
    (hacc : ∀ p ∈ acc, CombinedInv n1 n2 p.2) :
    ∀ p ∈ acc', CombinedInv n1 n2 p.2 := by
  unfold verifyFieldStep at h
  split at h
  · split at h
    · split at h
      · split at h
        · exact absurd h (by simp)
        · injection h with h
          subst h
          intro p hp
          rcases mem_insertEntry hp with h2 | h2
          · rw [h2]; trivial
          · exact hacc p h2
      · injection h with h
        subst h
        exact hacc
    · split at h
      · exact absurd h (by simp)
      · injection h with h
        subst h
        intro p hp
        rcases mem_insertEntry hp with h2 | h2
        · rw [h2]; trivial
        · exact hacc p h2
  · injection h with h
    subst h
    exact hacc

theorem stepField_inv {df1 df2 : DataFrame} {b : Bool} {o : Option FieldPair}
    {acc acc' : List (String × VEntry)} {n1 n2 : Nat}
    (h : stepField df1 df2 b o acc = .ok acc')
    (hacc : ∀ p ∈ acc, CombinedInv n1 n2 p.2) :
    ∀ p ∈ acc', CombinedInv n1 n2 p.2 := by
  unfold stepField at h
  split at h
  · exact verifyFieldStep_inv h hacc
  · injection h with h
    subst h
    exact hacc

theorem verifyMerge_inv {t1m t2m df1 df2 : DataFrame} {s : Suggestion} {skey : String}
    {acc : List (String × VEntry)}
    (hacc : ∀ p ∈ acc, CombinedInv df1.nrows df2.nrows p.2) :
    ∀ p ∈ verifyMerge t1m t2m df1 df2 s skey acc, CombinedInv df1.nrows df2.nrows p.2 := by
  unfold verifyMerge
  split
  · intro p hp
    rcases mem_insertEntry hp with h2 | h2
    · rw [h2]; trivial
    · exact hacc p h2
  · split
    · intro p hp
      rcases mem_insertEntry hp with h2 | h2
      · rw [h2]; trivial
      · exact hacc p h2
    · split
      · intro p hp
        rcases mem_insertEntry hp with h2 | h2
        · rw [h2]; trivial
        · exact hacc p h2
      · intro p hp
        rcases mem_insertEntry hp with h2 | h2
        · rw [h2]
          exact ⟨rfl, rfl, Nat.pos_of_ne_zero (by assumption), rfl⟩
        · exact hacc p h2

theorem verifyCombinedStep_inv {df1 df2 : DataFrame} {s : Suggestion} {skey : String}
    {acc : List (String × VEntry)}
    (hacc : ∀ p ∈ acc, CombinedInv df1.nrows df2.nrows p.2) :
    ∀ p ∈ verifyCombinedStep df1 df2 s skey acc, CombinedInv df1.nrows df2.nrows p.2 := by
  unfold verifyCombinedStep
  split
  · exact hacc
  · split
    · exact verifyMerge_inv hacc
    · split
      · intro p hp
        rcases mem_insertEntry hp with h2 | h2
        · rw [h2]; trivial
        · exact hacc p h2
      · split
        · intro p hp
          rcases mem_insertEntry hp with h2 | h2
          · rw [h2]; trivial
          · exact hacc p h2
        · exact verifyMerge_inv hacc

theorem verifySuggestion_inv {df1 df2 : DataFrame} {skey : String} {s : Suggestion}
    {acc acc' : List (String × VEntry)}
    (h : verifySuggestion df1 df2 skey s acc = .ok acc')
    (hacc : ∀ p ∈ acc, CombinedInv df1.nrows df2.nrows p.2) :
    ∀ p ∈ acc', CombinedInv df1.nrows df2.nrows p.2 := by
  unfold verifySuggestion at h
  split at h
  · exact absurd h (by simp)
  · split at h
    · exact absurd h (by simp)
    · split at h
      · exact absurd h (by simp)
      · injection h with h
        subst h
        refine verifyCombinedStep_inv ?_
        refine stepField_inv (by assumption) ?_
        refine stepField_inv (by assumption) ?_
        exact stepField_inv (by assumption) hacc

theorem verifyAux_inv (df1 df2 : DataFrame) :
    ∀ (sgs : List (String × Suggestion)) (acc res : List (String × VEntry)),
      (∀ p ∈ acc, CombinedInv df1.nrows df2.nrows p.2) →
      verifyValueOverlapAux df1 df2 sgs acc = .ok res →
      ∀ p ∈ res, CombinedInv df1.nrows df2.nrows p.2 := by
  intro sgs
  induction sgs with
  | nil =>
    intro acc res hacc h
    injection h with h
    subst h
    exact hacc
  | cons hd tl ih =>
    intro acc res hacc h
    unfold verifyValueOverlapAux at h
    split at h
    · exact absurd h (by simp)
    · exact ih _ res (verifySuggestion_inv (by assumption) hacc) h

theorem verifyValueOverlap_inv {sgs : List (String × Suggestion)} {df1 df2 : DataFrame}
    {res : List (String × VEntry)} (h : verifyValueOverlap sgs df1 df2 = .ok res) :
    ∀ p ∈ res, CombinedInv df1.nrows df2.nrows p.2 := by
  exact verifyAux_inv df1 df2 sgs [] res (by intro p hp; exact absurd hp (by simp)) h

theorem overlapPct_eq_zero_iff {a M : Nat} (hM : M ≠ 0) :
    ((a : ℚ) / (M : ℚ) * 100 = 0) ↔ a = 0 := by
  rw [div_mul_eq_mul_div, div_eq_zero_iff]
  constructor
  · rintro (h | h)
    · rcases mul_eq_zero.1 h with h' | h'
      · exact_mod_cast h'
      · exact absurd h' (by norm_num)
    · exact absurd h (by exact_mod_cast hM)
  · intro h
    subst h
    left
    norm_num

theorem overlapPct_eq_hundred_iff {a M : Nat} (hM : M ≠ 0) :
    ((a : ℚ) / (M : ℚ) * 100 = 100) ↔ a = M := by
  have hMQ : ((M : Nat) : ℚ) ≠ 0 := by exact_mod_cast hM
  rw [div_mul_eq_mul_div, div_eq_iff hMQ]
  constructor
  · intro h
    have h100 : (100 : ℚ) ≠ 0 := by norm_num
    have hc : (a : ℚ) = (M : ℚ) := by
      rw [mul_comm (100 : ℚ) ((M : Nat) : ℚ)] at h
      exact mul_right_cancel₀ h100 h
    exact_mod_cast hc
  · intro h
    subst h
    ring

/-! ### Claim theorems -/

/-- C10: for every table and column whose named column contains no
non-missing values at all, `_normalize_date_column` raises (when the column
is not already structurally rejected, the non-null count is zero, so the
failure rate defaults to 1.0 and exceeds the 20 percent threshold); an empty
or all-null column can never be accepted as a date column. -/
theorem C10_allNull_rejected (df : DataFrame) (col : String) (c : Column)
    (hcol : df.getCol col = some c) (hall : ∀ x ∈ c.cells, x = none) :
    ∃ e, normalizeDateColumn df col = .error e := by
  simp only [normalizeDateColumn, hcol]
  split
  · exact ⟨_, rfl⟩
  · have hnil : c.cells.filterMap id = [] := by
      rw [List.filterMap_eq_nil_iff]
      intro a ha
      simp [hall a ha]
    have h0 : (c.cells.filterMap id).length = 0 := by rw [hnil]; rfl
    rw [if_pos (Or.inl h0)]
    exact ⟨_, rfl⟩

/-- Witness for C10 at a concrete two-row all-null column. -/
theorem C10_allNull_rejected_witness :
    ∃ e, normalizeDateColumn c10T "x" = .error e :=
  C10_allNull_rejected c10T "x" ⟨.object, [none, none]⟩ rfl (by decide)

/-- C8 (code bug): the failure-rate numerator of `_normalize_date_column` is
`dates.isna().sum()`, which counts originally-missing cells as failed
conversions, contradicting the inline comment (more than 20 percent of
non-null values failed to convert) and the specification.  At the failing
input the column has one parseable non-missing value and one missing marker:
no non-missing value is unparseable (second conjunct), yet the column is
rejected with a rate of 1.0 (first conjunct). -/
theorem C8_nullCounting_bug :
    normalizeDateColumn c8T "date" = .error (.badRate "date" [.str "2023-01-15"]) ∧
    (([some (Value.str "2023-01-15"), none].filterMap id).filter
        (fun v => (parseCell v).isNone)).length = 0 := by
  exact ⟨by decide, by decide⟩

/-- C9 (code bug): date normalization is not idempotent on a column that is
already in canonical year-month form once missing markers are present: the
single value of `c9T` is canonical (it parses and renders back to itself,
first conjunct), but renormalizing raises because the missing marker is
counted as a failed conversion (second conjunct), instead of returning the
column unchanged. -/
theorem C9_idempotence_bug :
    (parseCell (.str "2023-01") = some ⟨2023, 1, 1⟩ ∧ formatYM ⟨2023, 1, 1⟩ = "2023-01") ∧
    normalizeDateColumn c9T "month" = .error (.badRate "month" [.str "2023-01"]) := by
  exact ⟨⟨by decide, by decide⟩, by decide⟩

/-- C2 (code bug): when date normalization fails on a side (here the date
column of `c2T1` is numeric), `check_join_health` swallows the exception and
reports the untouched zeroed `combined_overlap` dictionary: a success-shaped
entry with `matching_records = 0` and `overlap_percentage = 0` and no error
marker, indistinguishable from a join that matched no rows. -/
theorem C2_silentZero_bug :
    (∃ e, normalizeDateColumn c2T1 "d" = .error e) ∧
    checkJoinHealthCombined c2T1 c2T2 c2Join = ⟨1, 1, 0, 0, 0, none, none⟩ ∧
    (checkJoinHealthCombined c2T1 c2T2 c2Join).matching_records = 0 ∧
    (checkJoinHealthCombined c2T1 c2T2 c2Join).overlap_percentage = 0 := by
  refine ⟨⟨.structural "d", by decide⟩, ?_, ?_, ?_⟩
  · with_unfolding_all rfl
  · with_unfolding_all rfl
  · with_unfolding_all rfl

/-- C6: the Field Validator value-overlap check reports
`100 × card(inter) / max(card1, card2)` over the distinct non-missing value
sets; the percentage is invariant under swapping the two tables, is 0 exactly
when the sets are disjoint, and is 100 exactly when the sets are equal. -/
theorem C6_valueOverlap (t1 t2 : DataFrame) (f1 f2 : String) (c1 c2 : Column)
    (h1 : t1.getCol f1 = some c1) (h2 : t2.getCol f2 = some c2)
    (hne : max c1.distinctVals.card c2.distinctVals.card ≠ 0) :
    ∃ r, valueOverlapCheck t1 t2 f1 f2 = .ok r ∧
      r.overlap_percentage = ((c1.distinctVals ∩ c2.distinctVals).card : ℚ) /
        ((max c1.distinctVals.card c2.distinctVals.card : Nat) : ℚ) * 100 ∧
      (∃ r2, valueOverlapCheck t2 t1 f2 f1 = .ok r2 ∧
        r2.overlap_percentage = r.overlap_percentage) ∧
      (r.overlap_percentage = 0 ↔ Disjoint c1.distinctVals c2.distinctVals) ∧
      (r.overlap_percentage = 100 ↔ c1.distinctVals = c2.distinctVals) := by
  simp only [valueOverlapCheck, h1, h2]
  rw [if_neg hne]
  refine ⟨_, rfl, rfl, ?_, ?_, ?_⟩
  · have hne2 : max c2.distinctVals.card c1.distinctVals.card ≠ 0 := by
      rw [Nat.max_comm]; exact hne
    rw [if_neg hne2]
    refine ⟨_, rfl, ?_⟩
    rw [Finset.inter_comm c2.distinctVals c1.distinctVals,
      Nat.max_comm c2.distinctVals.card c1.distinctVals.card]
  · rw [overlapPct_eq_zero_iff hne, Finset.card_eq_zero,
      ← Finset.disjoint_iff_inter_eq_empty]
  · rw [overlapPct_eq_hundred_iff hne, inter_card_eq_max_iff]

/-- Witness for C6 over the concrete columns with distinct values 1,2 and
2,3. -/
theorem C6_valueOverlap_witness :
    ∃ r, valueOverlapCheck c7T1 c7T2 "a" "b" = .ok r ∧
      r.overlap_percentage = ((c7Col1.distinctVals ∩ c7Col2.distinctVals).card : ℚ) /
        ((max c7Col1.distinctVals.card c7Col2.distinctVals.card : Nat) : ℚ) * 100 ∧
      (∃ r2, valueOverlapCheck c7T2 c7T1 "b" "a" = .ok r2 ∧
        r2.overlap_percentage = r.overlap_percentage) ∧
      (r.overlap_percentage = 0 ↔ Disjoint c7Col1.distinctVals c7Col2.distinctVals) ∧
      (r.overlap_percentage = 100 ↔ c7Col1.distinctVals = c7Col2.distinctVals) :=
  C6_valueOverlap c7T1 c7T2 "a" "b" c7Col1 c7Col2 rfl rfl (by decide)

/-- C7 (counterexample): on distinct-value sets 1,2 and 2,3 the Field
Validator value-overlap check reports 50 (denominator `max` of the set
sizes), but the per-field entry built by `check_join_health` reports 100/3
(denominator the size of the union), so the two per-field percentages are not
equal as the claim states. -/
theorem C7_counterexample :
    valueOverlapCheck c7T1 c7T2 "a" "b" = .ok ⟨50, 1, 1⟩ ∧
    checkJoinHealthFieldEntry c7T1 c7T2 "a" "b" = .ok ⟨100 / 3, 2, 2, 1, 3⟩ ∧
    (100 / 3 : ℚ) ≠ 50 :=
  ⟨by with_unfolding_all rfl, by with_unfolding_all rfl, by norm_num⟩

/-- C7 (amended): for a non-date mapping whose columns exist and whose value
sets are not both empty, the per-field percentage of `_verify_value_overlap`
equals the Field Validator value-overlap percentage (both divide by the
larger set size), while `check_join_health` instead reports
`100 × card(inter) / card(union)` (its cap at 100 never binds since the
intersection is at most the union). -/
theorem C7_perField_amended (df1 df2 : DataFrame) (f1 f2 : String) (c1 c2 : Column)
    (acc : List (String × VEntry))
    (h1 : df1.getCol f1 = some c1) (h2 : df2.getCol f2 = some c2)
    (hne : max c1.distinctVals.card c2.distinctVals.card ≠ 0) :
    (∃ r, valueOverlapCheck df1 df2 f1 f2 = .ok r ∧
       verifyFieldStep df1 df2 false ⟨f1, f2⟩ acc =
         .ok (insertEntry acc (f1 ++ "_" ++ f2)
           (.fieldOverlap r.overlap_percentage c1.distinctVals.card c2.distinctVals.card
             (c1.distinctVals ∩ c2.distinctVals).card))) ∧
    (∃ e, checkJoinHealthFieldEntry df1 df2 f1 f2 = .ok e ∧
       e.overlap_percentage = ((c1.distinctVals ∩ c2.distinctVals).card : ℚ) /
         (((c1.distinctVals ∪ c2.distinctVals).card : Nat) : ℚ) * 100) := by
  constructor
  · simp only [valueOverlapCheck, h1, h2]
    rw [if_neg hne]
    refine ⟨_, rfl, ?_⟩
    simp only [verifyFieldStep, h1, h2]
    rw [if_neg hne]
    rfl
  · have hu : (c1.distinctVals ∪ c2.distinctVals).card ≠ 0 := by
      intro h0
      apply hne
      rcases Finset.union_eq_empty.1 (Finset.card_eq_zero.1 h0) with ⟨e1, e2⟩
      rw [e1, e2]
      simp
    simp only [checkJoinHealthFieldEntry, h1, h2]
    rw [if_neg hu]
    refine ⟨_, rfl, ?_⟩
    have hsub : (c1.distinctVals ∩ c2.distinctVals).card ≤
        (c1.distinctVals ∪ c2.distinctVals).card :=
      Finset.card_le_card Finset.inter_subset_union
    have hQpos : (0 : ℚ) < (((c1.distinctVals ∪ c2.distinctVals).card : Nat) : ℚ) := by
      exact_mod_cast Nat.pos_of_ne_zero hu
    have hle : ((c1.distinctVals ∩ c2.distinctVals).card : ℚ) /
        (((c1.distinctVals ∪ c2.distinctVals).card : Nat) : ℚ) * 100 ≤ 100 := by
      rw [div_mul_eq_mul_div, div_le_iff₀ hQpos]
      have hcast : ((c1.distinctVals ∩ c2.distinctVals).card : ℚ) ≤
          (((c1.distinctVals ∪ c2.distinctVals).card : Nat) : ℚ) := by
        exact_mod_cast hsub
      nlinarith
    exact min_eq_right hle

/-- Witness for C7 (amended) over the concrete columns with distinct values
1,2 and 2,3 and an empty accumulator. -/
theorem C7_perField_amended_witness :
    (∃ r, valueOverlapCheck c7T1 c7T2 "a" "b" = .ok r ∧
       verifyFieldStep c7T1 c7T2 false ⟨"a", "b"⟩ [] =
         .ok (insertEntry [] ("a" ++ "_" ++ "b")
           (.fieldOverlap r.overlap_percentage c7Col1.distinctVals.card c7Col2.distinctVals.card
             (c7Col1.distinctVals ∩ c7Col2.distinctVals).card))) ∧
    (∃ e, checkJoinHealthFieldEntry c7T1 c7T2 "a" "b" = .ok e ∧
       e.overlap_percentage = ((c7Col1.distinctVals ∩ c7Col2.distinctVals).card : ℚ) /
         (((c7Col1.distinctVals ∪ c7Col2.distinctVals).card : Nat) : ℚ) * 100) :=
  C7_perField_amended c7T1 c7T2 "a" "b" c7Col1 c7Col2 [] rfl rfl (by decide)

/-- C4 (counterexample): with both named columns present but holding zero
rows, both distinct-value sets are empty and `value_overlap_check` raises a
ZeroDivisionError instead of returning a well-formed degraded result. -/
theorem C4_counterexample :
    valueOverlapCheck c4T1 c4T2 "a" "b" = .error "ZeroDivisionError" := by
  with_unfolding_all rfl

/-- C4 (amended): the Field Validator checks are not total.
`value_overlap_check` raises a KeyError when a named column is absent, and
raises a ZeroDivisionError exactly when both distinct-value sets are empty
(whenever at least one set is nonempty it returns a well-formed result); when
it does return a result and one side has zero rows, the reported percentage
is 0. -/
theorem C4_amended :
    (∀ (t1 t2 : DataFrame) (f1 f2 : String),
       (t1.getCol f1 = none ∨ t2.getCol f2 = none) →
       valueOverlapCheck t1 t2 f1 f2 = .error "KeyError") ∧
    (∀ (t1 t2 : DataFrame) (f1 f2 : String) (c1 c2 : Column),
       t1.getCol f1 = some c1 → t2.getCol f2 = some c2 →
       (((valueOverlapCheck t1 t2 f1 f2 = .error "ZeroDivisionError") ↔
          (c1.distinctVals = ∅ ∧ c2.distinctVals = ∅)) ∧
        (¬(c1.distinctVals = ∅ ∧ c2.distinctVals = ∅) →
          ∃ r, valueOverlapCheck t1 t2 f1 f2 = .ok r) ∧
        (∀ r, valueOverlapCheck t1 t2 f1 f2 = .ok r →
          c1.cells = [] ∨ c2.cells = [] → r.overlap_percentage = 0))) := by
  constructor
  · intro t1 t2 f1 f2 h
    rcases h with h | h
    · cases hy : t2.getCol f2 <;> simp [valueOverlapCheck, h, hy]
    · cases hx : t1.getCol f1 <;> simp [valueOverlapCheck, h, hx]
  · intro t1 t2 f1 f2 c1 c2 h1 h2
    refine ⟨?_, ?_, ?_⟩
    · simp only [valueOverlapCheck, h1, h2]
      by_cases hm : max c1.distinctVals.card c2.distinctVals.card = 0
      · rw [if_pos hm]
        refine iff_of_true rfl ?_
        rcases Nat.max_eq_zero_iff.1 hm with ⟨hz1, hz2⟩
        exact ⟨Finset.card_eq_zero.1 hz1, Finset.card_eq_zero.1 hz2⟩
      · rw [if_neg hm]
        refine iff_of_false (by simp) ?_
        rintro ⟨e1, e2⟩
        apply hm
        rw [e1, e2]
        simp
    · intro hne
      have hm : max c1.distinctVals.card c2.distinctVals.card ≠ 0 := by
        intro hm0
        apply hne
        rcases Nat.max_eq_zero_iff.1 hm0 with ⟨hz1, hz2⟩
        exact ⟨Finset.card_eq_zero.1 hz1, Finset.card_eq_zero.1 hz2⟩
      simp only [valueOverlapCheck, h1, h2]
      rw [if_neg hm]
      exact ⟨_, rfl⟩
    · intro r hr hemp
      simp only [valueOverlapCheck, h1, h2] at hr
      split at hr
      · exact absurd hr (by simp)
      · injection hr with hr
        subst hr
        have hz : (c1.distinctVals ∩ c2.distinctVals).card = 0 := by
          rcases hemp with he | he
          · have hv : c1.distinctVals = ∅ := by
              simp [Column.distinctVals, he]
            rw [hv, Finset.empty_inter, Finset.card_empty]
          · have hv : c2.distinctVals = ∅ := by
              simp [Column.distinctVals, he]
            rw [hv, Finset.inter_empty, Finset.card_empty]
        show ((c1.distinctVals ∩ c2.distinctVals).card : ℚ) / _ * 100 = 0
        rw [hz]
        simp

/-- Witness for C4 (amended): a missing column name gives a KeyError, two
empty columns land in the error side of the iff, a nonempty column against a
zero-row column yields a well-formed result, and that result carries
percentage 0. -/
theorem C4_amended_witness :
    valueOverlapCheck c4T1 c4T2 "zzz" "b" = .error "KeyError" ∧
    ((valueOverlapCheck c4T1 c4T2 "a" "b" = .error "ZeroDivisionError") ↔
      ((⟨.object, []⟩ : Column).distinctVals = ∅ ∧
        (⟨.object, []⟩ : Column).distinctVals = ∅)) ∧
    (∃ r, valueOverlapCheck c4T3 c4T1 "v" "a" = .ok r) ∧
    (⟨0, 1, 0⟩ : OverlapMetrics).overlap_percentage = 0 :=
  ⟨C4_amended.1 c4T1 c4T2 "zzz" "b" (Or.inl rfl),
   (C4_amended.2 c4T1 c4T2 "a" "b" ⟨.object, []⟩ ⟨.object, []⟩ rfl rfl).1,
   (C4_amended.2 c4T3 c4T1 "v" "a" ⟨.int64, [some (.int 7)]⟩ ⟨.object, []⟩ rfl rfl).2.1
     (by decide),
   (C4_amended.2 c4T3 c4T1 "v" "a" ⟨.int64, [some (.int 7)]⟩ ⟨.object, []⟩ rfl rfl).2.2
     ⟨0, 1, 0⟩ (by with_unfolding_all rfl) (Or.inr rfl)⟩

/-- C3: the Health Aggregator (modelled from the spec, absent from src/)
reports the stated formulas, all four scores stay within 0 and 100 whenever
its inputs do, and duplication rates 33.3 and 0 give a uniqueness score of
exactly 83.35. -/
theorem C3_healthScore (d1 d2 ov n1 n2 : ℚ)
    (hd1 : 0 ≤ d1 ∧ d1 ≤ 100) (hd2 : 0 ≤ d2 ∧ d2 ≤ 100)
    (hov : 0 ≤ ov ∧ ov ≤ 100) (hn1 : 0 ≤ n1 ∧ n1 ≤ 100) (hn2 : 0 ≤ n2 ∧ n2 ≤ 100) :
    (healthScore d1 d2 ov n1 n2).uniqueness_score = 100 - (d1 + d2) / 2 ∧
    (healthScore d1 d2 ov n1 n2).overlap_score = ov ∧
    (healthScore d1 d2 ov n1 n2).null_impact = (n1 + n2) / 2 ∧
    (healthScore d1 d2 ov n1 n2).overall_health =
      (4 / 10) * (healthScore d1 d2 ov n1 n2).uniqueness_score +
        (4 / 10) * (healthScore d1 d2 ov n1 n2).overlap_score +
        (2 / 10) * (100 - (healthScore d1 d2 ov n1 n2).null_impact) ∧
    (0 ≤ (healthScore d1 d2 ov n1 n2).uniqueness_score ∧
      (healthScore d1 d2 ov n1 n2).uniqueness_score ≤ 100) ∧
    (0 ≤ (healthScore d1 d2 ov n1 n2).overlap_score ∧
      (healthScore d1 d2 ov n1 n2).overlap_score ≤ 100) ∧
    (0 ≤ (healthScore d1 d2 ov n1 n2).null_impact ∧
      (healthScore d1 d2 ov n1 n2).null_impact ≤ 100) ∧
    (0 ≤ (healthScore d1 d2 ov n1 n2).overall_health ∧
      (healthScore d1 d2 ov n1 n2).overall_health ≤ 100) ∧
    (healthScore (333 / 10) 0 0 0 0).uniqueness_score = 8335 / 100 := by
  obtain ⟨hd1a, hd1b⟩ := hd1
  obtain ⟨hd2a, hd2b⟩ := hd2
  obtain ⟨hova, hovb⟩ := hov
  obtain ⟨hn1a, hn1b⟩ := hn1
  obtain ⟨hn2a, hn2b⟩ := hn2
  refine ⟨rfl, rfl, rfl, rfl, ⟨?_, ?_⟩, ⟨hova, hovb⟩, ⟨?_, ?_⟩, ⟨?_, ?_⟩, by norm_num [healthScore]⟩
  · show (0 : ℚ) ≤ 100 - (d1 + d2) / 2
    linarith
  · show (100 : ℚ) - (d1 + d2) / 2 ≤ 100
    linarith
  · show (0 : ℚ) ≤ (n1 + n2) / 2
    linarith
  · show (n1 + n2) / 2 ≤ (100 : ℚ)
    linarith
  · show (0 : ℚ) ≤ (4 / 10) * (100 - (d1 + d2) / 2) + (4 / 10) * ov +
      (2 / 10) * (100 - (n1 + n2) / 2)
    linarith
  · show (4 / 10 : ℚ) * (100 - (d1 + d2) / 2) + (4 / 10) * ov +
      (2 / 10) * (100 - (n1 + n2) / 2) ≤ 100
    linarith

/-- Witness for C3 at duplication rates 40 and 20, overlap 50 and null
percentages 10 and 30. -/
theorem C3_healthScore_witness :
    (healthScore 40 20 50 10 30).uniqueness_score = 100 - (40 + 20) / 2 ∧
    (healthScore 40 20 50 10 30).overlap_score = 50 ∧
    (healthScore 40 20 50 10 30).null_impact = (10 + 30) / 2 ∧
    (healthScore 40 20 50 10 30).overall_health =
      (4 / 10) * (healthScore 40 20 50 10 30).uniqueness_score +
        (4 / 10) * (healthScore 40 20 50 10 30).overlap_score +
        (2 / 10) * (100 - (healthScore 40 20 50 10 30).null_impact) ∧
    (0 ≤ (healthScore 40 20 50 10 30).uniqueness_score ∧
      (healthScore 40 20 50 10 30).uniqueness_score ≤ 100) ∧
    (0 ≤ (healthScore 40 20 50 10 30).overlap_score ∧
      (healthScore 40 20 50 10 30).overlap_score ≤ 100) ∧
    (0 ≤ (healthScore 40 20 50 10 30).null_impact ∧
      (healthScore 40 20 50 10 30).null_impact ≤ 100) ∧
    (0 ≤ (healthScore 40 20 50 10 30).overall_health ∧
      (healthScore 40 20 50 10 30).overall_health ≤ 100) ∧
    (healthScore (333 / 10) 0 0 0 0).uniqueness_score = 8335 / 100 :=
  C3_healthScore 40 20 50 10 30 (by norm_num) (by norm_num) (by norm_num)
    (by norm_num) (by norm_num)

/-- C1 (counterexample): on a fan-out join (two rows against three rows, all
sharing one customer key) the combined entry of `_verify_value_overlap`
reports an overlap percentage of 300, not capped at 100, and carries no
multiplication-factor key at all, so the claim fails for
`_verify_value_overlap`. -/
theorem C1_counterexample :
    verifyValueOverlap c1Sugg c1T1 c1T2 =
      .ok [("c_d", .fieldOverlap 100 1 1 1),
           ("combined_overlap_suggestion1", .combined 2 3 6 300)] ∧
    ¬ ((300 : ℚ) ≤ 100) :=
  ⟨by with_unfolding_all rfl, by norm_num⟩

/-- C1 (amended): after a successful merge, `check_join_health` reports
`overlap_percentage = min(100, 100 x matching / min(total1, total2))` and
`multiplication_factor = round2(matching / max(total1, total2))`, while every
combined success entry of `_verify_value_overlap` reports the uncapped
`100 x matching / min(total1, total2)` and no multiplication factor (the
entry type carries none). -/
theorem C1_combined_amended :
    (∀ (t1 t2 : DataFrame) (j : SelectedJoin) (r : CombinedOverlap),
       1 ≤ t1.nrows → 1 ≤ t2.nrows →
       checkJoinHealthCombinedTry t1 t2 j = .ok r →
       r.total_records_table1 = t1.nrows ∧ r.total_records_table2 = t2.nrows ∧
       r.overlap_percentage = min 100 ((r.matching_records : ℚ) /
         ((min r.total_records_table1 r.total_records_table2 : Nat) : ℚ) * 100) ∧
       r.multiplication_factor = round2 ((r.matching_records : ℚ) /
         ((max r.total_records_table1 r.total_records_table2 : Nat) : ℚ))) ∧
    (∀ (sgs : List (String × Suggestion)) (df1 df2 : DataFrame)
       (res : List (String × VEntry)) (skey : String) (n1 n2 m : Nat) (p : ℚ),
       verifyValueOverlap sgs df1 df2 = .ok res →
       (skey, VEntry.combined n1 n2 m p) ∈ res →
       n1 = df1.nrows ∧ n2 = df2.nrows ∧
       p = (m : ℚ) / ((min n1 n2 : Nat) : ℚ) * 100) := by
  constructor
  · intro t1 t2 j r _ _ h
    obtain ⟨m, rfl, _, _⟩ := combinedTry_ok h
    exact ⟨rfl, rfl, rfl, rfl⟩
  · intro sgs df1 df2 res skey n1 n2 m p h hmem
    have hinv := verifyValueOverlap_inv h (skey, VEntry.combined n1 n2 m p) hmem
    obtain ⟨ha, hb, _, hp⟩ := hinv
    refine ⟨ha, hb, ?_⟩
    rw [ha, hb]
    exact hp

/-- Witness for C1 (amended): the `check_join_health` part at the one-row
tiny tables, and the `_verify_value_overlap` part at the fan-out tables whose
combined entry is `combined 2 3 6 300`. -/
theorem C1_combined_amended_witness :
    ((mkCombinedSuccess 1 1 1).total_records_table1 = tinyT1.nrows ∧
     (mkCombinedSuccess 1 1 1).total_records_table2 = tinyT2.nrows ∧
     (mkCombinedSuccess 1 1 1).overlap_percentage =
       min 100 (((mkCombinedSuccess 1 1 1).matching_records : ℚ) /
         ((min (mkCombinedSuccess 1 1 1).total_records_table1
           (mkCombinedSuccess 1 1 1).total_records_table2 : Nat) : ℚ) * 100) ∧
     (mkCombinedSuccess 1 1 1).multiplication_factor =
       round2 (((mkCombinedSuccess 1 1 1).matching_records : ℚ) /
         ((max (mkCombinedSuccess 1 1 1).total_records_table1
           (mkCombinedSuccess 1 1 1).total_records_table2 : Nat) : ℚ))) ∧
    (2 = c1T1.nrows ∧ 3 = c1T2.nrows ∧
     (300 : ℚ) = (6 : ℚ) / ((min 2 3 : Nat) : ℚ) * 100) :=
  ⟨C1_combined_amended.1 tinyT1 tinyT2 tinyJoin (mkCombinedSuccess 1 1 1)
     (by decide) (by decide) (by with_unfolding_all rfl),
   C1_combined_amended.2 c1Sugg c1T1 c1T2
     [("c_d", .fieldOverlap 100 1 1 1),
      ("combined_overlap_suggestion1", .combined 2 3 6 300)]
     "combined_overlap_suggestion1" 2 3 6 300
     (by with_unfolding_all rfl) (by simp)⟩

set_option maxRecDepth 100000 in
set_option maxHeartbeats 4000000 in
/-- C5 (counterexample): with 200 rows on the larger side and 201 matched
pairs the unrounded factor is 201/200, so `has_duplicates` is true and the
warning is non-empty, but the reported `multiplication_factor` is
`round(1.005, 2) = 1.0` and is not greater than 1: the three facts of the
claim do not coincide. -/
theorem C5_counterexample :
    checkJoinHealthCombinedTry c5T1 c5T2 c5Join = .ok (mkCombinedSuccess 200 3 201) ∧
    (mkCombinedSuccess 200 3 201).has_duplicates = some true ∧
    (mkCombinedSuccess 200 3 201).duplicate_warning =
      some (duplicateWarning 201 200 ((201 : ℚ) / 200)) ∧
    duplicateWarning 201 200 ((201 : ℚ) / 200) ≠ "" ∧
    (mkCombinedSuccess 200 3 201).multiplication_factor = 1 ∧
    ¬ (1 < (mkCombinedSuccess 200 3 201).multiplication_factor) := by
  have hmf : (mkCombinedSuccess 200 3 201).multiplication_factor = 1 := by
    with_unfolding_all rfl
  refine ⟨?_, ?_, ?_, duplicateWarning_ne _ _ _, hmf, ?_⟩
  · with_unfolding_all rfl
  · with_unfolding_all rfl
  · with_unfolding_all rfl
  · rw [hmf]
    norm_num

/-- C5 (amended): in every successful combined result of `check_join_health`,
`has_duplicates = true` and a non-empty `duplicate_warning` coincide exactly
with the unrounded ratio `matching / max(total1, total2)` exceeding 1; the
reported two-decimal `multiplication_factor` exceeding 1 implies that ratio
exceeds 1, but not conversely (rounding can bring a ratio slightly above 1
down to 1.0). -/
theorem C5_flags_amended (t1 t2 : DataFrame) (j : SelectedJoin) (r : CombinedOverlap)
    (h : checkJoinHealthCombinedTry t1 t2 j = .ok r) :
    ∃ w, r.duplicate_warning = some w ∧
      (r.has_duplicates = some true ↔
        1 < (r.matching_records : ℚ) /
          ((max r.total_records_table1 r.total_records_table2 : Nat) : ℚ)) ∧
      (w ≠ "" ↔
        1 < (r.matching_records : ℚ) /
          ((max r.total_records_table1 r.total_records_table2 : Nat) : ℚ)) ∧
      (1 < r.multiplication_factor →
        1 < (r.matching_records : ℚ) /
          ((max r.total_records_table1 r.total_records_table2 : Nat) : ℚ)) := by
  obtain ⟨m, rfl, _, _⟩ := combinedTry_ok h
  refine ⟨_, rfl, ?_, ?_, ?_⟩
  · show some (decide ((m : ℚ) / ((max t1.nrows t2.nrows : Nat) : ℚ) > 1)) = some true ↔
      1 < (m : ℚ) / ((max t1.nrows t2.nrows : Nat) : ℚ)
    constructor
    · intro hd
      exact of_decide_eq_true (Option.some.inj hd)
    · intro hlt
      exact congrArg some (decide_eq_true hlt)
  · show (if (m : ℚ) / ((max t1.nrows t2.nrows : Nat) : ℚ) > 1 then
        duplicateWarning m (max t1.nrows t2.nrows)
          ((m : ℚ) / ((max t1.nrows t2.nrows : Nat) : ℚ))
      else "") ≠ "" ↔ 1 < (m : ℚ) / ((max t1.nrows t2.nrows : Nat) : ℚ)
    by_cases hgt : 1 < (m : ℚ) / ((max t1.nrows t2.nrows : Nat) : ℚ)
    · rw [if_pos hgt]
      exact iff_of_true (duplicateWarning_ne _ _ _) hgt
    · rw [if_neg hgt]
      exact iff_of_false (by simp) hgt
  · intro hr
    by_contra hle
    push_neg at hle
    have h2 := round2_le_one hle
    have hr2 : 1 < round2 ((m : ℚ) / ((max t1.nrows t2.nrows : Nat) : ℚ)) := hr
    exact absurd hr2 (not_lt.2 h2)

/-- Witness for C5 (amended) at the one-row tiny tables, whose merge matches
exactly one pair of rows. -/
theorem C5_flags_amended_witness :
    ∃ w, (mkCombinedSuccess 1 1 1).duplicate_warning = some w ∧
      ((mkCombinedSuccess 1 1 1).has_duplicates = some true ↔
        1 < ((mkCombinedSuccess 1 1 1).matching_records : ℚ) /
          ((max (mkCombinedSuccess 1 1 1).total_records_table1
            (mkCombinedSuccess 1 1 1).total_records_table2 : Nat) : ℚ)) ∧
      (w ≠ "" ↔
        1 < ((mkCombinedSuccess 1 1 1).matching_records : ℚ) /
          ((max (mkCombinedSuccess 1 1 1).total_records_table1
            (mkCombinedSuccess 1 1 1).total_records_table2 : Nat) : ℚ)) ∧
      (1 < (mkCombinedSuccess 1 1 1).multiplication_factor →
        1 < ((mkCombinedSuccess 1 1 1).matching_records : ℚ) /
          ((max (mkCombinedSuccess 1 1 1).total_records_table1
            (mkCombinedSuccess 1 1 1).total_records_table2 : Nat) : ℚ)) :=
  C5_flags_amended tinyT1 tinyT2 tinyJoin (mkCombinedSuccess 1 1 1)
    (by with_unfolding_all rfl)
